import Mathlib

/-!
Shallow embedding of the semantic-matching engine of the findit backend
(`src/findit/backend_findit/app.js`, lines 299-345): the helper
`computeTextSimilarity` (with its inner `cosineSimilarity`) and the
`POST /matchingfounditems` endpoint.

Modelling conventions:
* JavaScript floating-point numbers are idealised as real numbers, except
  that the IEEE `NaN` outcome is tracked explicitly by the type `JSNum`,
  because the code's `cosineSimilarity` can perform the division `0/0`
  (either vector of zero norm) or index past the end of the second array
  (`b[index]` is `undefined`), and in JavaScript both produce `NaN`, which
  then compares `false` against the threshold.
* The external embedding model (`similarityModel`, a HuggingFace pipeline)
  is abstracted as a function from text to either a vector or a provider
  error; `await similarityModel(text)` together with the `[0]` extraction
  of the returned embedding is one provider call.  Each definition that can
  invoke the provider has an instrumented variant (suffix `C`) that also
  returns the number of provider calls made along the executed path, so
  that call-count claims can be stated.
* The MongoDB fetch `FoundItem.find()` is modelled by passing the fetched
  list of items as an argument; the endpoint never writes to the
  collection, so the index is an input, never an output.
-/

/-- A JavaScript number: either IEEE `NaN` or an (idealised) real value. -/
inductive JSNum where
  | nan : JSNum
  | num : ℝ → JSNum
deriving Inhabited

/-- Error raised by the external embedding provider (network, timeout,
malformed response); in the source this is whatever `similarityModel`
rejects with, caught by the `try/catch` of `computeTextSimilarity`. -/
inductive ProviderError where
  | mk : ProviderError
deriving Inhabited, DecidableEq

/-- The abstract embedding provider: `similarityModel` composed with the
`[0]` extraction, returning the embedding vector of a text or failing. -/
def Provider : Type := String → Except ProviderError (List ℝ)

/-- JavaScript comparison `x >= t`: `NaN >= t` is `false`; otherwise the
real comparison. -/
noncomputable def jsGe (x : JSNum) (t : ℝ) : Bool :=
  match x with
  | .nan => false
  | .num v => if t ≤ v then true else false

/-- The `reduce` computing `dotProduct` in `cosineSimilarity`
(app.js:306): `a.reduce((sum, value, index) => sum + value * b[index], 0)`.
It runs over the indices of `a`; `List.zipWith` reproduces it whenever
`a` is at most as long as `b` (the longer-`a` case, where `b[index]` is
`undefined` and the result is `NaN`, is handled in `cosineSimilarity`). -/
def dotProduct (a b : List ℝ) : ℝ :=
  (List.zipWith (fun x y => x * y) a b).sum

/-- The `reduce` computing the squared norm inside `cosineSimilarity`
(app.js:307-308): `v.reduce((sum, value) => sum + value * value, 0)`. -/
def sumSq (v : List ℝ) : ℝ :=
  (v.map (fun x => x * x)).sum

/-- The inner `cosineSimilarity` of `computeTextSimilarity`
(app.js:305-310): `dotProduct / (normA * normB)` with
`normA = Math.sqrt(sumSq a)`, `normB = Math.sqrt(sumSq b)`.
The two guards make the JavaScript `NaN` outcomes explicit:
if `b` is shorter than `a` then `b[index]` is `undefined` and the dot
product is `NaN`; if either norm is `0` then every term of the dot
product is `0` (over the reals a vector of zero norm is the zero vector,
and the dot product only ranges over `a`'s indices) and the division is
`0/0 = NaN`.  In every other case the division is an ordinary real
division. -/
noncomputable def cosineSimilarity (a b : List ℝ) : JSNum :=
  if b.length < a.length then .nan
  else if Real.sqrt (sumSq a) * Real.sqrt (sumSq b) = 0 then .nan
  else .num (dotProduct a b / (Real.sqrt (sumSq a) * Real.sqrt (sumSq b)))

/-- Instrumented `computeTextSimilarity` (app.js:299-317): value returned
together with the number of provider calls made.  The source awaits
`similarityModel(text1)` and then `similarityModel(text2)`; if the first
await rejects, the second is never started (1 call) and the `catch`
returns `0`; if the second rejects (2 calls) the `catch` returns `0`;
otherwise (2 calls) the cosine similarity of the two embeddings is
returned.  The `catch` swallows every error, so the function always
returns a number. -/
noncomputable def computeTextSimilarityC (provider : Provider)
    (text1 text2 : String) : JSNum × Nat :=
  match provider text1 with
  | .error _ => (.num 0, 1)
  | .ok embeddings1 =>
    match provider text2 with
    | .error _ => (.num 0, 2)
    | .ok embeddings2 => (cosineSimilarity embeddings1 embeddings2, 2)

/-- The value computed by `computeTextSimilarity` (app.js:299-317). -/
noncomputable def computeTextSimilarity (provider : Provider)
    (text1 text2 : String) : JSNum :=
  (computeTextSimilarityC provider text1 text2).1

/-- Number of provider calls made by one `computeTextSimilarity` call. -/
noncomputable def computeTextSimilarityCalls (provider : Provider)
    (text1 text2 : String) : Nat :=
  (computeTextSimilarityC provider text1 text2).2

/-- A found-item record as the matching endpoint uses it: only
`description` enters the similarity computation; `id` and `reportedAt`
are carried metadata (the schema's further fields play no role in the
matching code and are omitted). -/
structure Item where
  id : Nat
  description : String
  reportedAt : Nat
deriving DecidableEq

/-- Failure outcome of the matching endpoint: the `400` response
`"Lost item description is required"` sent when `lostItemDescription`
is missing or empty (app.js:323-325). -/
inductive MatchError where
  | invalidQuery : MatchError
deriving DecidableEq

/-- The candidate loop of the endpoint (app.js:330-338): starting from
`matchedItems = []`, each found item whose similarity with the query is
`>= ` the threshold is pushed, in fetch order.  The source writes the
threshold as the literal `0.5` in the comparison; it is abstracted here
as the parameter `t`, and `matchingFoundItemsC` instantiates `t = 0.5`
exactly as the source does. -/
noncomputable def matchedItems (provider : Provider)
    (lostItemDescription : String) (foundItems : List Item) (t : ℝ) :
    List Item :=
  foundItems.filter
    (fun item =>
      jsGe (computeTextSimilarity provider lostItemDescription
        item.description) t)

/-- Instrumented `POST /matchingfounditems` endpoint (app.js:319-345):
the response together with the number of provider calls made.  If
`lostItemDescription` is falsy (absent or the empty string, both
modelled as `""`) the endpoint answers `400` with no provider call;
otherwise it fetches the found items (passed here as `foundItems`),
runs the candidate loop with threshold `0.5`, and answers `200` with
the matched items.  Each loop iteration calls `computeTextSimilarity`
once, so the call count is the sum over the items of that iteration's
provider-call count. -/
noncomputable def matchingFoundItemsC (provider : Provider)
    (lostItemDescription : String) (foundItems : List Item) :
    Except MatchError (List Item) × Nat :=
  if lostItemDescription = "" then (.error .invalidQuery, 0)
  else
    (.ok (matchedItems provider lostItemDescription foundItems 0.5),
      (foundItems.map
        (fun item =>
          computeTextSimilarityCalls provider lostItemDescription
            item.description)).sum)

/-- The response of `POST /matchingfounditems` (app.js:319-345). -/
noncomputable def matchingFoundItems (provider : Provider)
    (lostItemDescription : String) (foundItems : List Item) :
    Except MatchError (List Item) :=
  (matchingFoundItemsC provider lostItemDescription foundItems).1

/-- Number of provider calls made by one `POST /matchingfounditems`
call. -/
noncomputable def matchingFoundItemsCalls (provider : Provider)
    (lostItemDescription : String) (foundItems : List Item) : Nat :=
  (matchingFoundItemsC provider lostItemDescription foundItems).2

/-- Modelled from the spec: text normalization.  The spec (section 3)
defines normalized text as trimmed and case-folded; the backend code
performs no normalization at all, so this definition exists only to
state the claims that speak about "text empty after normalization".
Trimming (dropping leading and trailing whitespace) and case folding
are spelled out over the character list. -/
def normalizeText (s : String) : String :=
  String.mk (((s.data.dropWhile Char.isWhitespace).reverse.dropWhile
    Char.isWhitespace).reverse.map Char.toLower)

/-- Modelled from the spec: the ranking the spec claims for result
sequences (section 3, MatchResult invariant): `i` may precede `j` when
`i`'s score is strictly greater, or the scores are equal and `i` was
reported no later than `j` (score descending, ties by `reportedAt`
ascending); a `NaN` score has no place in the claimed order. -/
noncomputable def claimedRank (provider : Provider) (q : String)
    (i j : Item) : Prop :=
  match computeTextSimilarity provider q i.description,
      computeTextSimilarity provider q j.description with
  | .num a, .num b => b < a ∨ (a = b ∧ i.reportedAt ≤ j.reportedAt)
  | _, _ => False

/-! ## Basic facts about the scorer's arithmetic -/

lemma sumSq_nonneg (v : List ℝ) : 0 ≤ sumSq v := by
  induction v with
  | nil => simp [sumSq]
  | cons x xs ih =>
    simp only [sumSq, List.map_cons, List.sum_cons] at ih ⊢
    nlinarith [mul_self_nonneg x]

lemma cs_step (x y d sa sb : ℝ) (hsa : 0 ≤ sa) (hsb : 0 ≤ sb)
    (h : d ^ 2 ≤ sa * sb) :
    (x * y + d) ^ 2 ≤ (x * x + sa) * (y * y + sb) := by
  rcases eq_or_lt_of_le hsa with hsa0 | hsaPos
  · have hd : d = 0 := by nlinarith [sq_nonneg d]
    subst hd
    nlinarith [mul_self_nonneg x, mul_self_nonneg y,
      mul_nonneg (mul_self_nonneg x) hsb]
  · nlinarith [sq_nonneg (x * d - y * sa),
      mul_nonneg (mul_self_nonneg x) (sub_nonneg.2 h),
      mul_nonneg hsa (sub_nonneg.2 h), hsb, mul_self_nonneg y]

/-- Cauchy-Schwarz for the list dot product and squared norms. -/
lemma dotProduct_sq_le (a b : List ℝ) :
    dotProduct a b ^ 2 ≤ sumSq a * sumSq b := by
  induction a generalizing b with
  | nil => simp [dotProduct, sumSq]
  | cons x a ih =>
    cases b with
    | nil =>
      simp only [dotProduct, List.zipWith_nil_right, List.sum_nil, sumSq,
        List.map_nil, mul_zero]
      simp
    | cons y b =>
      have hSa := sumSq_nonneg a
      have hSb := sumSq_nonneg b
      have hIH := ih b
      simp only [sumSq] at hSa hSb
      simp only [dotProduct, sumSq] at hIH
      simp only [dotProduct, sumSq, List.zipWith_cons_cons, List.map_cons,
        List.sum_cons]
      exact cs_step x y _ _ _ hSa hSb hIH

lemma abs_dotProduct_le (a b : List ℝ) :
    |dotProduct a b| ≤ Real.sqrt (sumSq a) * Real.sqrt (sumSq b) := by
  have h := Real.sqrt_le_sqrt (dotProduct_sq_le a b)
  rwa [Real.sqrt_sq_eq_abs, Real.sqrt_mul (sumSq_nonneg a)] at h

/-- Evaluation helper: when the input lengths do not trigger the
out-of-bounds case and both squared norms are (concrete) perfect
squares, `cosineSimilarity` is the plain division. -/
lemma cosineSimilarity_eval (a b : List ℝ) (ra rb : ℝ)
    (hlen : ¬ b.length < a.length) (hra : 0 < ra) (hrb : 0 < rb)
    (ha : sumSq a = ra ^ 2) (hb : sumSq b = rb ^ 2) :
    cosineSimilarity a b = .num (dotProduct a b / (ra * rb)) := by
  unfold cosineSimilarity
  rw [if_neg hlen, ha, hb, Real.sqrt_sq hra.le, Real.sqrt_sq hrb.le,
    if_neg (mul_pos hra hrb).ne']

/-! ## Concrete fixtures used by witnesses and counterexamples -/

/-- A provider that embeds every text as the same vector `v`. -/
def constProvider (v : List ℝ) : Provider := fun _ => .ok v

/-- A provider that fails on every text. -/
def failProvider : Provider := fun _ => .error .mk

/-- A found item whose description is "wallet". -/
def itemA : Item := ⟨1, "wallet", 10⟩

/-- A found item whose description is "backpack". -/
def itemB : Item := ⟨2, "backpack", 20⟩

/-- A provider sending "wallet" to `[3, 4]` and everything else to
`[1, 0]`: against the query "lost" (embedding `[1, 0]`), `itemA` scores
`3/5` and `itemB` scores `1`. -/
def providerLowHigh : Provider := fun s =>
  if s = "wallet" then .ok [3, 4] else .ok [1, 0]

/-- A provider sending "wallet" to `[7, 24]` and everything else to
`[1, 0]`: against the query "lost", `itemA` scores `7/25 = 0.28`. -/
def providerMid : Provider := fun s =>
  if s = "wallet" then .ok [7, 24] else .ok [1, 0]

lemma cos_unit : cosineSimilarity [1, 0] [1, 0] = .num 1 := by
  rw [cosineSimilarity_eval _ _ 1 1 (by norm_num) one_pos one_pos
    (by norm_num [sumSq]) (by norm_num [sumSq])]
  norm_num [dotProduct]

lemma cos_three_fifths : cosineSimilarity [1, 0] [3, 4] = .num (3 / 5) := by
  rw [cosineSimilarity_eval _ _ 1 5 (by norm_num) one_pos (by norm_num)
    (by norm_num [sumSq]) (by norm_num [sumSq])]
  norm_num [dotProduct]

lemma cos_seven_25ths : cosineSimilarity [1, 0] [7, 24] = .num (7 / 25) := by
  rw [cosineSimilarity_eval _ _ 1 25 (by norm_num) one_pos (by norm_num)
    (by norm_num [sumSq]) (by norm_num [sumSq])]
  norm_num [dotProduct]

/-! ## Evaluation helpers -/

lemma jsGe_num_true {v t : ℝ} (h : t ≤ v) : jsGe (.num v) t = true := by
  simp [jsGe, h]

lemma jsGe_num_false {v t : ℝ} (h : ¬ t ≤ v) : jsGe (.num v) t = false := by
  simp [jsGe, h]

lemma jsGe_nan (t : ℝ) : jsGe .nan t = false := rfl

lemma jsGe_mono {t t' : ℝ} (h : t' ≤ t) :
    ∀ x : JSNum, jsGe x t = true → jsGe x t' = true := by
  intro x hx
  cases x with
  | nan => exact absurd hx (by simp [jsGe])
  | num v =>
    simp only [jsGe] at hx ⊢
    by_cases hv : t ≤ v
    · rw [if_pos (le_trans h hv)]
    · rw [if_neg hv] at hx
      exact absurd hx (by simp)

lemma cts_ok_ok {P : Provider} {t1 t2 : String} {v1 v2 : List ℝ}
    (h1 : P t1 = .ok v1) (h2 : P t2 = .ok v2) :
    computeTextSimilarityC P t1 t2 = (cosineSimilarity v1 v2, 2) := by
  unfold computeTextSimilarityC
  rw [h1, h2]

lemma cts_error_left {P : Provider} {t1 : String} (t2 : String)
    {e : ProviderError} (h1 : P t1 = .error e) :
    computeTextSimilarityC P t1 t2 = (.num 0, 1) := by
  unfold computeTextSimilarityC
  rw [h1]

lemma cts_error_right {P : Provider} {t1 t2 : String} {v1 : List ℝ}
    {e : ProviderError} (h1 : P t1 = .ok v1) (h2 : P t2 = .error e) :
    computeTextSimilarityC P t1 t2 = (.num 0, 2) := by
  unfold computeTextSimilarityC
  rw [h1, h2]

lemma cts_val {P : Provider} {t1 t2 : String} {v1 v2 : List ℝ}
    (h1 : P t1 = .ok v1) (h2 : P t2 = .ok v2) :
    computeTextSimilarity P t1 t2 = cosineSimilarity v1 v2 := by
  unfold computeTextSimilarity
  rw [cts_ok_ok h1 h2]

lemma ctsCalls_ok {P : Provider} {t1 : String} (t2 : String) {v1 : List ℝ}
    (h1 : P t1 = .ok v1) :
    computeTextSimilarityCalls P t1 t2 = 2 := by
  unfold computeTextSimilarityCalls computeTextSimilarityC
  rw [h1]
  rcases hP2 : P t2 with e | v <;> rfl

lemma matchedItems_nil (P : Provider) (q : String) (t : ℝ) :
    matchedItems P q [] t = [] := rfl

lemma matchedItems_cons (P : Provider) (q : String) (it : Item)
    (items : List Item) (t : ℝ) :
    matchedItems P q (it :: items) t =
      if jsGe (computeTextSimilarity P q it.description) t = true
      then it :: matchedItems P q items t
      else matchedItems P q items t := by
  simp [matchedItems, List.filter_cons]

lemma matchingFoundItems_eval {P : Provider} {q : String}
    {items l : List Item} (hq : q ≠ "")
    (h : matchedItems P q items 0.5 = l) :
    matchingFoundItems P q items = .ok l := by
  unfold matchingFoundItems matchingFoundItemsC
  rw [if_neg hq]
  show Except.ok (matchedItems P q items 0.5) = .ok l
  rw [h]

lemma matchingFoundItemsCalls_eval {P : Provider} {q : String}
    (items : List Item) (hq : q ≠ "") :
    matchingFoundItemsCalls P q items =
      (items.map
        (fun item =>
          computeTextSimilarityCalls P q item.description)).sum := by
  unfold matchingFoundItemsCalls matchingFoundItemsC
  rw [if_neg hq]

lemma constProvider_eval (v : List ℝ) (s : String) :
    constProvider v s = .ok v := rfl

lemma providerLowHigh_wallet : providerLowHigh "wallet" = .ok [3, 4] := by
  unfold providerLowHigh
  rw [if_pos rfl]

lemma providerLowHigh_lost : providerLowHigh "lost" = .ok [1, 0] := by
  unfold providerLowHigh
  rw [if_neg (by decide)]

lemma providerLowHigh_backpack : providerLowHigh "backpack" = .ok [1, 0] := by
  unfold providerLowHigh
  rw [if_neg (by decide)]

lemma providerMid_wallet : providerMid "wallet" = .ok [7, 24] := by
  unfold providerMid
  rw [if_pos rfl]

lemma providerMid_lost : providerMid "lost" = .ok [1, 0] := by
  unfold providerMid
  rw [if_neg (by decide)]

lemma match_lowHigh_eval :
    matchingFoundItems providerLowHigh "lost" [itemA, itemB] =
      .ok [itemA, itemB] := by
  have hA : computeTextSimilarity providerLowHigh "lost" itemA.description =
      .num (3 / 5) :=
    (cts_val providerLowHigh_lost providerLowHigh_wallet).trans
      cos_three_fifths
  have hB : computeTextSimilarity providerLowHigh "lost" itemB.description =
      .num 1 :=
    (cts_val providerLowHigh_lost providerLowHigh_backpack).trans cos_unit
  refine matchingFoundItems_eval (by decide) ?_
  rw [matchedItems_cons, matchedItems_cons, matchedItems_nil, hA, hB,
    jsGe_num_true (by norm_num : (0.5 : ℝ) ≤ 3 / 5),
    jsGe_num_true (by norm_num : (0.5 : ℝ) ≤ 1)]
  simp

/-! ## Common facts about the endpoint result -/

lemma matchingFoundItems_ok_elim {P : Provider} {q : String}
    {items r : List Item} (h : matchingFoundItems P q items = .ok r) :
    r = matchedItems P q items 0.5 := by
  unfold matchingFoundItems matchingFoundItemsC at h
  by_cases hq : q = ""
  · rw [if_pos hq] at h
    exact Except.noConfusion h
  · rw [if_neg hq] at h
    exact (Except.ok.inj h).symm

/-! ## Claims about the similarity scorer -/

/-- C5 counterexample: on the zero vector (zero norm on both sides) the
code's `cosineSimilarity` returns `NaN` — the JavaScript division
`0/0` — and `NaN` is not the neutral value `0` the claim promises. -/
theorem C5_counterexample :
    cosineSimilarity [(0 : ℝ)] [(0 : ℝ)] = .nan ∧
    JSNum.nan ≠ JSNum.num 0 := by
  constructor
  · have h0 : sumSq [(0 : ℝ)] = 0 := by norm_num [sumSq]
    unfold cosineSimilarity
    rw [if_neg (by norm_num), h0, Real.sqrt_zero, zero_mul, if_pos rfl]
  · intro h
    exact JSNum.noConfusion h

/-- C5 (amended): when either input vector has zero norm the scorer
performs the division `0/0` and returns `NaN` (never raising — the
function is total); the `NaN` score then fails every `>=` threshold
comparison, so such a candidate is excluded rather than scored `0`. -/
theorem C5_zero_norm_gives_nan (a b : List ℝ)
    (h : sumSq a = 0 ∨ sumSq b = 0) :
    cosineSimilarity a b = .nan ∧
    ∀ t : ℝ, jsGe (cosineSimilarity a b) t = false := by
  have hnan : cosineSimilarity a b = .nan := by
    unfold cosineSimilarity
    by_cases hlen : b.length < a.length
    · rw [if_pos hlen]
    · have hz : Real.sqrt (sumSq a) * Real.sqrt (sumSq b) = 0 := by
        rcases h with h | h
        · rw [h, Real.sqrt_zero, zero_mul]
        · rw [h, Real.sqrt_zero, mul_zero]
      rw [if_neg hlen, if_pos hz]
  exact ⟨hnan, fun t => by rw [hnan]; rfl⟩

/-- Witness for C5's amended theorem at the concrete input
`a = [0, 0]`, `b = [1, 2]`. -/
theorem C5_witness :
    (sumSq [(0 : ℝ), 0] = 0 ∨ sumSq [(1 : ℝ), 2] = 0) ∧
    (cosineSimilarity [(0 : ℝ), 0] [(1 : ℝ), 2] = .nan ∧
      ∀ t : ℝ, jsGe (cosineSimilarity [(0 : ℝ), 0] [(1 : ℝ), 2]) t = false) :=
  ⟨Or.inl (by norm_num [sumSq]),
    C5_zero_norm_gives_nan [0, 0] [1, 2] (Or.inl (by norm_num [sumSq]))⟩

/-- C8: for every pair of vectors of the same dimension (the embedding
provider's fixed dimension) with non-zero norms, `cosineSimilarity`
returns an ordinary number lying in the closed interval `[-1, 1]`. -/
theorem C8_cosine_in_range (a b : List ℝ) (hlen : a.length = b.length)
    (ha : sumSq a ≠ 0) (hb : sumSq b ≠ 0) :
    ∃ v, cosineSimilarity a b = .num v ∧ -1 ≤ v ∧ v ≤ 1 := by
  have hA : 0 < Real.sqrt (sumSq a) :=
    Real.sqrt_pos.2 (lt_of_le_of_ne (sumSq_nonneg a) (Ne.symm ha))
  have hB : 0 < Real.sqrt (sumSq b) :=
    Real.sqrt_pos.2 (lt_of_le_of_ne (sumSq_nonneg b) (Ne.symm hb))
  have hn : 0 < Real.sqrt (sumSq a) * Real.sqrt (sumSq b) := mul_pos hA hB
  have habs := abs_dotProduct_le a b
  refine ⟨dotProduct a b / (Real.sqrt (sumSq a) * Real.sqrt (sumSq b)),
    ?_, ?_, ?_⟩
  · unfold cosineSimilarity
    rw [if_neg (by omega), if_neg hn.ne']
  · rw [le_div_iff₀ hn]
    have h1 := (abs_le.1 habs).1
    linarith
  · rw [div_le_one hn]
    exact (abs_le.1 habs).2

/-- Witness for C8 at the concrete input `a = [1, 0]`, `b = [3, 4]`. -/
theorem C8_witness :
    ([1, 0] : List ℝ).length = ([3, 4] : List ℝ).length ∧
    sumSq [(1 : ℝ), 0] ≠ 0 ∧ sumSq [(3 : ℝ), 4] ≠ 0 ∧
    ∃ v, cosineSimilarity [(1 : ℝ), 0] [(3 : ℝ), 4] = .num v ∧
      -1 ≤ v ∧ v ≤ 1 :=
  ⟨rfl, by norm_num [sumSq], by norm_num [sumSq],
    C8_cosine_in_range [1, 0] [3, 4] rfl (by norm_num [sumSq])
      (by norm_num [sumSq])⟩

/-- C9: `computeTextSimilarity` is total and swallows provider
failures: whenever either provider call fails, it returns the score
`0`; and a `0` score fails every strictly positive `>=` threshold, so
such a candidate is silently excluded rather than failing the match
call. -/
theorem C9_error_swallowed (P : Provider) (t1 t2 : String)
    (e : ProviderError) :
    (P t1 = .error e → computeTextSimilarity P t1 t2 = .num 0) ∧
    (P t2 = .error e → computeTextSimilarity P t1 t2 = .num 0) ∧
    (∀ th : ℝ, 0 < th → jsGe (.num 0) th = false) := by
  refine ⟨fun h => ?_, fun h => ?_, fun th hth => ?_⟩
  · unfold computeTextSimilarity
    rw [cts_error_left t2 h]
  · rcases h1 : P t1 with e1 | v1
    · unfold computeTextSimilarity
      rw [cts_error_left t2 h1]
    · unfold computeTextSimilarity
      rw [cts_error_right h1 h]
  · exact jsGe_num_false (not_le.2 hth)

/-- Witness for C9 with the always-failing provider and texts
`"a"`, `"b"`, threshold `0.5`. -/
theorem C9_witness :
    failProvider "a" = .error .mk ∧
    computeTextSimilarity failProvider "a" "b" = .num 0 ∧
    jsGe (.num 0) 0.5 = false :=
  ⟨rfl, (C9_error_swallowed failProvider "a" "b" .mk).1 rfl,
    (C9_error_swallowed failProvider "a" "b" .mk).2.2 0.5 (by norm_num)⟩

/-- C7: raising the threshold never adds matches — for `t > t'` the
candidate loop's result at threshold `t` is a subset of its result at
threshold `t'` (the source instantiates the threshold at `0.5`; the
property holds for every pair of thresholds of the retention test). -/
theorem C7_threshold_monotone (P : Provider) (q : String)
    (items : List Item) (t t' : ℝ) (h : t' < t) :
    matchedItems P q items t ⊆ matchedItems P q items t' := by
  unfold matchedItems
  exact (List.monotone_filter_right _
    (fun it hit => jsGe_mono h.le _ hit)).subset

/-- Witness for C7 at thresholds `0.7 > 0.5` on a one-item index. -/
theorem C7_witness :
    (0.5 : ℝ) < 0.7 ∧
    matchedItems (constProvider [1, 0]) "lost" [itemA] 0.7 ⊆
      matchedItems (constProvider [1, 0]) "lost" [itemA] 0.5 :=
  ⟨by norm_num, C7_threshold_monotone _ _ _ _ _ (by norm_num)⟩

/-! ## Claims about the matching endpoint -/

/-- C1 counterexample: a match call over a single candidate with an
always-succeeding provider makes 2 provider calls, not the claimed
exactly 1 — the code re-embeds the query text for every candidate and
embeds the candidate too. -/
theorem C1_counterexample :
    matchingFoundItemsCalls (constProvider [1, 0]) "lost" [itemA] = 2 ∧
    (2 : ℕ) ≠ 1 := by
  constructor
  · rw [matchingFoundItemsCalls_eval _ (by decide), List.map_cons,
      List.map_nil, List.sum_cons, List.sum_nil,
      ctsCalls_ok _ (constProvider_eval _ _)]
    norm_num
  · decide

/-- C1 (amended): the code performs no caching and no embed-at-index
split — every loop iteration embeds both the query text and the
candidate description, so a match call whose provider succeeds on the
query text makes exactly `2 * n` provider calls for `n` candidates. -/
theorem C1_two_calls_per_candidate (P : Provider) (q : String)
    (items : List Item) (v : List ℝ) (hq : q ≠ "") (hP : P q = .ok v) :
    matchingFoundItemsCalls P q items = 2 * items.length := by
  rw [matchingFoundItemsCalls_eval items hq]
  induction items with
  | nil => rfl
  | cons it its ih =>
    rw [List.map_cons, List.sum_cons, ih, ctsCalls_ok it.description hP,
      List.length_cons]
    ring

/-- Witness for C1's amended theorem: two candidates, four calls. -/
theorem C1_witness :
    ("lost" : String) ≠ "" ∧
    constProvider [1, 0] "lost" = .ok [1, 0] ∧
    matchingFoundItemsCalls (constProvider [1, 0]) "lost"
      [itemA, itemB] = 2 * ([itemA, itemB] : List Item).length :=
  ⟨by decide, rfl,
    C1_two_calls_per_candidate _ _ _ _ (by decide) rfl⟩

/-- C2 counterexample: when the provider fails on every text (so in
particular on the query), the match call does not fail — it returns
the 200 response with the empty list. -/
theorem C2_counterexample :
    matchingFoundItems failProvider "lost" [itemA] = .ok [] := by
  refine matchingFoundItems_eval (by decide) ?_
  have h : computeTextSimilarity failProvider "lost" itemA.description =
      .num 0 := by
    unfold computeTextSimilarity
    rw [cts_error_left _ rfl]
  rw [matchedItems_cons, matchedItems_nil, h,
    jsGe_num_false (by norm_num)]
  simp

/-- C2 (amended): a provider failure on the query text is swallowed:
every candidate is scored `0` by the `catch` and excluded by the `0.5`
threshold, so the call succeeds with the empty list instead of failing
with `ProviderError`.  (The endpoint never writes the found-item
collection, so the index is unchanged in every case.) -/
theorem C2_query_failure_swallowed (P : Provider) (q : String)
    (items : List Item) (e : ProviderError) (hq : q ≠ "")
    (hP : P q = .error e) :
    matchingFoundItems P q items = .ok [] := by
  refine matchingFoundItems_eval hq ?_
  unfold matchedItems
  refine List.filter_eq_nil_iff.2 fun it _ => ?_
  have h : computeTextSimilarity P q it.description = .num 0 := by
    unfold computeTextSimilarity
    rw [cts_error_left _ hP]
  rw [h, jsGe_num_false (by norm_num)]
  simp

/-- Witness for C2's amended theorem with the always-failing
provider. -/
theorem C2_witness :
    ("lost" : String) ≠ "" ∧
    failProvider "lost" = .error .mk ∧
    matchingFoundItems failProvider "lost" [itemA, itemB] = .ok [] :=
  ⟨by decide, rfl,
    C2_query_failure_swallowed _ _ _ .mk (by decide) rfl⟩

/-- C3 counterexample: a concrete run returning `[itemA, itemB]` with
scores `3/5` then `1` — the returned sequence violates the claimed
(score descending, `reportedAt` ascending) ordering, because the code
never sorts. -/
theorem C3_counterexample :
    matchingFoundItems providerLowHigh "lost" [itemA, itemB] =
      .ok [itemA, itemB] ∧
    ¬ [itemA, itemB].Pairwise (claimedRank providerLowHigh "lost") := by
  refine ⟨match_lowHigh_eval, fun hp => ?_⟩
  rw [List.pairwise_cons] at hp
  have h := hp.1 itemB (by simp)
  have hA : computeTextSimilarity providerLowHigh "lost"
      itemA.description = .num (3 / 5) :=
    (cts_val providerLowHigh_lost providerLowHigh_wallet).trans
      cos_three_fifths
  have hB : computeTextSimilarity providerLowHigh "lost"
      itemB.description = .num 1 :=
    (cts_val providerLowHigh_lost providerLowHigh_backpack).trans cos_unit
  unfold claimedRank at h
  rw [hA, hB] at h
  simp only [] at h
  rcases h with h | ⟨h, _⟩ <;> norm_num at h

/-- C3 (amended): the code does no sorting — the result is always an
order-preserving subsequence of the fetched candidate list (fetch
order, not score order); repeating the same match on an unchanged
index and query returns the identical list (determinism holds). -/
theorem C3_fetch_order (P : Provider) (q : String) (items r : List Item)
    (h : matchingFoundItems P q items = .ok r) :
    List.Sublist r items ∧
    ∀ r', matchingFoundItems P q items = .ok r' → r' = r := by
  constructor
  · rw [matchingFoundItems_ok_elim h]
    unfold matchedItems
    exact List.filter_sublist items
  · intro r' h'
    rw [h] at h'
    exact (Except.ok.inj h').symm

/-- Witness for C3's amended theorem at a concrete run. -/
theorem C3_witness :
    matchingFoundItems providerLowHigh "lost" [itemA, itemB] =
      .ok [itemA, itemB] ∧
    (List.Sublist [itemA, itemB] [itemA, itemB] ∧
      ∀ r', matchingFoundItems providerLowHigh "lost" [itemA, itemB] =
        .ok r' → r' = [itemA, itemB]) :=
  ⟨match_lowHigh_eval, C3_fetch_order _ _ _ _ match_lowHigh_eval⟩

/-- C4 counterexample: for the caller-supplied threshold `0.2` the item
scores `7/25 >= 0.2`, yet the match call excludes it — the code
compares against the hard-coded `0.5`, not against a per-call
threshold. -/
theorem C4_counterexample :
    jsGe (computeTextSimilarity providerMid "lost" itemA.description)
      0.2 = true ∧
    matchingFoundItems providerMid "lost" [itemA] = .ok [] := by
  have hA : computeTextSimilarity providerMid "lost" itemA.description =
      .num (7 / 25) :=
    (cts_val providerMid_lost providerMid_wallet).trans cos_seven_25ths
  constructor
  · rw [hA]
    exact jsGe_num_true (by norm_num)
  · refine matchingFoundItems_eval (by decide) ?_
    rw [matchedItems_cons, matchedItems_nil, hA,
      jsGe_num_false (by norm_num)]
    simp

/-- C4 (amended): the threshold is the hard-coded constant `0.5`: an
item is in the result exactly when it is among the fetched candidates
and its similarity score passes `>= 0.5`. -/
theorem C4_hardcoded_half (P : Provider) (q : String)
    (items r : List Item) (x : Item)
    (h : matchingFoundItems P q items = .ok r) :
    x ∈ r ↔ x ∈ items ∧
      jsGe (computeTextSimilarity P q x.description) 0.5 = true := by
  rw [matchingFoundItems_ok_elim h]
  unfold matchedItems
  simp [List.mem_filter]

/-- Witness for C4's amended theorem at a concrete run. -/
theorem C4_witness :
    matchingFoundItems providerLowHigh "lost" [itemA, itemB] =
      .ok [itemA, itemB] ∧
    (itemA ∈ ([itemA, itemB] : List Item) ↔
      itemA ∈ ([itemA, itemB] : List Item) ∧
      jsGe (computeTextSimilarity providerLowHigh "lost"
        itemA.description) 0.5 = true) :=
  ⟨match_lowHigh_eval, C4_hardcoded_half _ _ _ _ _ match_lowHigh_eval⟩

/-- C6 counterexample: the whitespace-only query `" "` is empty after
the spec's normalization, yet the endpoint does not reject it — it
proceeds, makes 2 provider calls, and returns a 200 result. -/
theorem C6_counterexample :
    normalizeText " " = "" ∧
    matchingFoundItems (constProvider [1, 0]) " " [itemA] =
      .ok [itemA] ∧
    matchingFoundItemsCalls (constProvider [1, 0]) " " [itemA] = 2 := by
  refine ⟨rfl, ?_, ?_⟩
  · refine matchingFoundItems_eval (by decide) ?_
    rw [matchedItems_cons, matchedItems_nil,
      cts_val (constProvider_eval _ _) (constProvider_eval _ _), cos_unit,
      jsGe_num_true (by norm_num : (0.5 : ℝ) ≤ 1)]
    simp
  · rw [matchingFoundItemsCalls_eval _ (by decide), List.map_cons,
      List.map_nil, List.sum_cons, List.sum_nil,
      ctsCalls_ok _ (constProvider_eval _ _)]
    norm_num

/-- C6 (amended): only a missing or literally empty query text is
rejected: the endpoint then answers the 400 error having made zero
provider calls.  (Whitespace-only text, empty after the spec's
normalization, is not rejected — see the counterexample.) -/
theorem C6_empty_rejected_no_calls (P : Provider) (items : List Item) :
    matchingFoundItemsC P "" items = (.error .invalidQuery, 0) := rfl

/-- C10: every returned item comes from the fetched collection, in the
same relative order and (when the fetch has no duplicates) at most
once: the result is always a duplicate-free-preserving, order-preserving
subsequence of the fetched list, and the item records pass through the
endpoint unmodified. -/
theorem C10_results_from_fetch (P : Provider) (q : String)
    (items r : List Item) (h : matchingFoundItems P q items = .ok r) :
    List.Sublist r items ∧ (items.Nodup → r.Nodup) := by
  rw [matchingFoundItems_ok_elim h]
  unfold matchedItems
  exact ⟨List.filter_sublist items,
    fun hn => List.Nodup.sublist (List.filter_sublist items) hn⟩

/-- Witness for C10 at a concrete run. -/
theorem C10_witness :
    matchingFoundItems providerLowHigh "lost" [itemA, itemB] =
      .ok [itemA, itemB] ∧
    (List.Sublist ([itemA, itemB] : List Item) [itemA, itemB] ∧
      (([itemA, itemB] : List Item).Nodup →
        ([itemA, itemB] : List Item).Nodup)) :=
  ⟨match_lowHigh_eval, C10_results_from_fetch _ _ _ _ match_lowHigh_eval⟩
